import Mathlib

/-!
Verification of the staged-PDF analysis pipeline in `src/routes/feishu.ts`.

The webhook handler and the background task `processPdfAndReply` are embedded
as pure Lean functions.  External collaborators (object store, chat platform,
document-understanding service, document service) are modelled as oracles in
an `Env` record; a run produces a `Trace` recording every externally visible
effect (replies sent, upload calls, summarization calls, document calls and
storage deletions).  JavaScript string operations used by the source are
embedded as `js...` helpers over the strings' character lists.
-/

namespace Moltworker

/-- JS truthiness of an optional string field: `undefined` and the empty
string are falsy; a non-empty string is truthy (its own value). -/
def jsTruthyStr : Option String → Option String
  | some s => if s = "" then none else some s
  | none => none

/-- JS `String.prototype.toLowerCase` (ASCII-relevant part). -/
def jsToLower (s : String) : String := ⟨s.data.map Char.toLower⟩

/-- JS `s.endsWith(suf)`. -/
def jsEndsWith (s suf : String) : Bool := List.isSuffixOf suf.data s.data

/-- JS `s.startsWith(pre)`; also the object-store list-by-key-scope test. -/
def jsStartsWith (s p : String) : Bool := List.isPrefixOf p.data s.data

/-- Decidable infix test on character lists, for JS `s.includes(sub)`. -/
def jsIncludesL (sub : List Char) : List Char → Bool
  | [] => sub.isEmpty
  | x :: xs => List.isPrefixOf sub (x :: xs) || jsIncludesL sub xs

/-- JS `s.includes(sub)`: `sub` occurs contiguously in `s`. -/
def jsIncludes (s sub : String) : Bool := jsIncludesL sub.data s.data

/-- JS `s.substring(0, n)`. -/
def jsSubstr (s : String) (n : Nat) : String := ⟨s.data.take n⟩

/-- JS `s.split(c)` on the character list of `s` (single-character separator):
splits at every occurrence of `c`, keeping empty segments. -/
def splitChar (c : Char) : List Char → List (List Char)
  | [] => [[]]
  | x :: xs =>
    if x = c then [] :: splitChar c xs
    else
      match splitChar c xs with
      | [] => [[x]]
      | h :: t => (x :: h) :: t

/-- JS `parts.join(c)` for a single-character separator. -/
def joinChar (c : Char) : List (List Char) → List Char
  | [] => []
  | [x] => x
  | x :: y :: t => x ++ c :: joinChar c (y :: t)

/-- Embeds the per-file name computation of `processPdfAndReply`:
`pdf.key.split('_').slice(1).join('_') || 'file.pdf'`. -/
def extractFileName (key : String) : String :=
  let parts := splitChar '_' key.data
  let tl := joinChar '_' (parts.drop 1)
  if tl.isEmpty then "file.pdf" else ⟨tl⟩

/-- The storage key scope of one conversation:
backtick-free embedding of `chat_data/` + chatId + `/`. -/
def chatScope (chatId : String) : String := ("chat_data/") ++ chatId ++ ("/")

/-- The key under which `downloadAndSaveFeishuFile` stores a staged file:
`chat_data/` + chatId + `/` + Date.now() + `_` + fileName. -/
def storageKey (chatId : String) (now : Nat) (fileName : String) : String :=
  ("chat_data/") ++ chatId ++ ("/") ++ toString now ++ ("_") ++ fileName

/-- In-progress notice sent at the start of a run. -/
def processingMsg : String := "⏳ 收到请求，正在提取当前对话中暂存的 PDF 并分析，请稍候..."

/-- Empty-input reply when no staged PDF is found for the conversation. -/
def noPdfMsg : String := "❌ 在当前对话中没有找到任何待处理的 PDF 文件。请先直接向我发送 PDF 文件。"

/-- Error text thrown when DASHSCOPE_API_KEY is not configured. -/
def noDashKeyMsg : String := "DASHSCOPE_API_KEY 未配置"

/-- Failure reply sent by the catch-all handler of `processPdfAndReply`. -/
def failMsg (e : String) : String := ("❌ 处理失败：") ++ e

/-- Success reply with processed-file count and a document link. -/
def successMsg (count : Nat) (docUrl : String) : String :=
  ("✅ 处理成功！\n\n📁 已处理文件：") ++ toString count ++ (" 份\n📄 分析报告：") ++ docUrl

/-- Error text thrown when a DashScope upload response is not ok. -/
def uploadFailText (fileName errText : String) : String :=
  ("DashScope upload failed for ") ++ fileName ++ (": ") ++ errText

/-- Error text thrown when a DashScope upload response lacks a file id. -/
def noIdText (fileName : String) : String :=
  ("DashScope upload failed, no file ID returned for ") ++ fileName

/-- Error text thrown when document creation is rejected. -/
def docCreateFailText (raw : String) : String := ("Failed to create Feishu doc: ") ++ raw

/-- Error text thrown when the creation response carries no document id. -/
def noDocIdMsg : String := "Failed to get document_id from creation response"

/-- Error text thrown when the summarization call is rejected. -/
def llmFailText (errText : String) : String := ("LLM generation failed: ") ++ errText

/-- Placeholder summary used when `choices[0].message.content` is falsy. -/
def noSummaryMsg : String := "未能生成摘要。"

/-- One object of the store listing: a key and its upload time
(`o.key` and `o.uploaded` of an R2 listing entry). -/
structure StoredObj where
  key : String
  uploaded : Nat
  deriving DecidableEq, Repr

/-- Response of one DashScope file-upload call: HTTP ok flag, the optional
`id` field of the JSON body, and the body text used in error messages. -/
structure UploadResp where
  ok : Bool
  id : Option String
  errText : String
  deriving DecidableEq, Repr

/-- Response of the summarization call: HTTP ok flag, the optional
`choices[0].message.content` field, and the error body text. -/
structure LlmResp where
  ok : Bool
  content : Option String
  errText : String
  deriving DecidableEq, Repr

/-- Response of the document-creation call: the body's `code`, the optional
`data.document.document_id`, and the stringified body for error messages. -/
structure DocCreateResp where
  code : Int
  documentId : Option String
  raw : String
  deriving DecidableEq, Repr

/-- Response of the append-content call: the body's `code`. -/
structure DocWriteResp where
  code : Int
  deriving DecidableEq, Repr

/-- The external world of one run: configuration flags, the object store
contents, and the responses each external service returns.  `uploadResp k`
is the response to the k-th upload call of the run; `objPresent key` says
whether `bucket.get(key)` returns an object. -/
structure Env where
  appConfigured : Bool
  tokenOk : Bool
  dashKey : Bool
  bucket : List StoredObj
  objPresent : String → Bool
  uploadResp : Nat → UploadResp
  llmResp : LlmResp
  docCreateResp : DocCreateResp
  docWriteResp : DocWriteResp

/-- Externally visible effects of one run, in stage order. -/
structure Trace where
  replies : List String
  uploadCalls : List String
  llmCalls : List (List String)
  docCreateCalls : List String
  docWriteCalls : List (String × String)
  deletedKeys : List String
  deriving DecidableEq, Repr

/-- The empty trace (a run that made no external call). -/
def Trace.empty : Trace := ⟨[], [], [], [], [], []⟩

/-- The comparator of `pdfs.sort((a, b) => a.uploaded.getTime() - b.uploaded.getTime())`. -/
def uploadedLe (a b : StoredObj) : Prop := a.uploaded ≤ b.uploaded

instance : DecidableRel uploadedLe := fun a b => Nat.decLe a.uploaded b.uploaded

instance : IsTotal StoredObj uploadedLe := ⟨fun a b => Nat.le_total a.uploaded b.uploaded⟩

instance : IsTrans StoredObj uploadedLe := ⟨fun _ _ _ h h2 => Nat.le_trans h h2⟩

/-- Stage 3 (gather): list the bucket by the conversation's key scope and
keep keys whose lowercase form ends in `.pdf`. -/
def gatherPdfs (bucket : List StoredObj) (chatId : String) : List StoredObj :=
  (bucket.filter (fun o => jsStartsWith o.key (chatScope chatId))).filter
    (fun o => jsEndsWith (jsToLower o.key) (".pdf"))

/-- The ascending-by-upload-time sort of the gathered files.  JS
`Array.prototype.sort` is stable, so any stable sort by the same key is the
exact result; `List.insertionSort` is such a sort. -/
def sortByUploaded (l : List StoredObj) : List StoredObj := List.insertionSort uploadedLe l

/-- Accumulator of the upload loop: collected remote file ids, collected
file names, and the names for which an upload call was issued. -/
structure UploadAcc where
  fileIds : List String
  fileNames : List String
  uploadCalls : List String
  deriving DecidableEq, Repr

/-- Stage 4 (upload): the `for (const pdf of pdfs)` loop of
`processPdfAndReply`.  Skips files whose `bucket.get` returns nothing;
aborts with the thrown error text on a failed upload or a missing file id.
`k` counts the upload calls already made. -/
def uploadLoop (env : Env) : List StoredObj → Nat → UploadAcc → UploadAcc × Option String
  | [], _, acc => (acc, none)
  | pdf :: rest, k, acc =>
    if env.objPresent pdf.key then
      let fileName := extractFileName pdf.key
      let acc1 : UploadAcc :=
        { acc with fileNames := acc.fileNames ++ [fileName],
                   uploadCalls := acc.uploadCalls ++ [fileName] }
      let resp := env.uploadResp k
      if resp.ok then
        match jsTruthyStr resp.id with
        | some i => uploadLoop env rest (k + 1) { acc1 with fileIds := acc1.fileIds ++ [i] }
        | none => (acc1, some (noIdText fileName))
      else (acc1, some (uploadFailText fileName resp.errText))
    else uploadLoop env rest k acc

/-- The document title: `📄 分析报告: ` + fileNames.join(', ').substring(0, 50)
+ (`...` when the joined list is longer than 50). -/
def mkTitle (fileNames : List String) : String :=
  let joined := String.intercalate (", ") fileNames
  ("📄 分析报告: ") ++ jsSubstr joined 50 ++ (if 50 < joined.length then "..." else "")

/-- Stages 5-7 (summarize, create document, write content, cleanup, report),
entered when the upload loop finished without an error. -/
def summarizeAndFinish (env : Env) (pdfs : List StoredObj) (acc : UploadAcc) : Trace :=
  let base : Trace :=
    { Trace.empty with replies := [processingMsg], uploadCalls := acc.uploadCalls,
                       llmCalls := [acc.fileIds] }
  if env.llmResp.ok then
    let summary := (jsTruthyStr env.llmResp.content).getD noSummaryMsg
    let base := { base with docCreateCalls := [mkTitle acc.fileNames] }
    if env.docCreateResp.code = 0 then
      match jsTruthyStr env.docCreateResp.documentId with
      | some documentId =>
        { base with
            docWriteCalls := [(documentId, summary)],
            deletedKeys := pdfs.map (fun o => o.key),
            replies := base.replies ++
              [successMsg acc.fileNames.length (("https://feishu.cn/docx/") ++ documentId)] }
      | none => { base with replies := base.replies ++ [failMsg noDocIdMsg] }
    else
      { base with replies := base.replies ++ [failMsg (docCreateFailText env.docCreateResp.raw)] }
  else { base with replies := base.replies ++ [failMsg (llmFailText env.llmResp.errText)] }

/-- The body of the `try` block of `processPdfAndReply` (after the progress
reply): gather, sort, check the understanding-service key, upload, and the
later stages; every thrown error lands in the catch-all failure reply. -/
def runStages (env : Env) (chatId : String) : Trace :=
  let pdfs0 := gatherPdfs env.bucket chatId
  if pdfs0.length = 0 then { Trace.empty with replies := [processingMsg, noPdfMsg] }
  else
    let pdfs := sortByUploaded pdfs0
    if env.dashKey then
      let up := uploadLoop env pdfs 0 ⟨[], [], []⟩
      match up.2 with
      | some e =>
        { Trace.empty with replies := [processingMsg, failMsg e], uploadCalls := up.1.uploadCalls }
      | none => summarizeAndFinish env pdfs up.1
    else { Trace.empty with replies := [processingMsg, failMsg noDashKeyMsg] }

/-- The whole background task `processPdfAndReply`: returns silently when the
app credentials are missing or the platform token fetch fails, otherwise
runs the staged pipeline for the message's conversation. -/
def processPdfAndReply (env : Env) (chatId : String) : Trace :=
  if env.appConfigured then
    if env.tokenOk then runStages env chatId else Trace.empty
  else Trace.empty

/-- Outcome of the url_verification branch of the webhook handler. -/
inductive WebhookReply where
  | invalidToken : WebhookReply
  | challengeEcho : Option String → WebhookReply
  deriving DecidableEq, Repr

/-- The url_verification branch: reject when a verification token is
configured (truthy) and the payload token differs; otherwise echo the
payload's challenge value. -/
def handleUrlVerification (envToken tok chal : Option String) : WebhookReply :=
  match jsTruthyStr envToken with
  | some t => if tok ≠ some t then WebhookReply.invalidToken else WebhookReply.challengeEcho chal
  | none => WebhookReply.challengeEcho chal

/-- The file-message branch of the webhook handler: returns the name under
which the attachment is staged, or `none` when it is silently ignored.
Embeds `contentObj.file_name || 'unknown.pdf'`, `contentObj.file_key` and
the guard `fileKey && fileName.toLowerCase().endsWith('.pdf')`. -/
def fileBranchStages (file_name file_key : Option String) : Option String :=
  let fileName := (jsTruthyStr file_name).getD ("unknown.pdf")
  match jsTruthyStr file_key with
  | some _ => if jsEndsWith (jsToLower fileName) (".pdf") then some fileName else none
  | none => none

/-- The files of the sorted list the upload loop actually processes: those
whose `bucket.get` returns an object. -/
def presentFiles (env : Env) (l : List StoredObj) : List StoredObj :=
  l.filter (fun o => env.objPresent o.key)

/-- The (truthy) file id carried by the k-th upload response. -/
def respId (env : Env) (k : Nat) : String := (jsTruthyStr (env.uploadResp k).id).getD ("")

/-- The file ids collected by `n` consecutive successful upload calls
starting at call index `k`. -/
def expectedIds (env : Env) : Nat → Nat → List String
  | _, 0 => []
  | k, n + 1 => respId env k :: expectedIds env (k + 1) n

/-! ### Helper lemmas -/

/-- When app credentials and token are fine, the run is the staged pipeline. -/
lemma run_eq_stages (env : Env) (chatId : String)
    (h1 : env.appConfigured = true) (h2 : env.tokenOk = true) :
    processPdfAndReply env chatId = runStages env chatId := by
  simp [processPdfAndReply, h1, h2]

/-- Gather stage empty: exactly the progress and empty-input replies. -/
lemma runStages_empty (env : Env) (chatId : String)
    (h : gatherPdfs env.bucket chatId = []) :
    runStages env chatId = ⟨[processingMsg, noPdfMsg], [], [], [], [], []⟩ := by
  simp [runStages, h, Trace.empty]

/-- Missing understanding-service key: failure reply, nothing else. -/
lemma runStages_noKey (env : Env) (chatId : String)
    (h0 : gatherPdfs env.bucket chatId ≠ []) (hd : env.dashKey = false) :
    runStages env chatId = ⟨[processingMsg, failMsg noDashKeyMsg], [], [], [], [], []⟩ := by
  simp [runStages, hd, Trace.empty, List.length_eq_zero, h0]

/-- Upload loop aborted: the failure reply and the upload calls made so far. -/
lemma runStages_some (env : Env) (chatId : String) (e : String)
    (h0 : gatherPdfs env.bucket chatId ≠ []) (hd : env.dashKey = true)
    (hu : (uploadLoop env (sortByUploaded (gatherPdfs env.bucket chatId)) 0 ⟨[], [], []⟩).2
        = some e) :
    runStages env chatId =
      ⟨[processingMsg, failMsg e],
       (uploadLoop env (sortByUploaded (gatherPdfs env.bucket chatId)) 0 ⟨[], [], []⟩).1.uploadCalls,
       [], [], [], []⟩ := by
  simp [runStages, hd, Trace.empty, List.length_eq_zero, h0, hu]

/-- Upload loop finished: the run continues into the later stages. -/
lemma runStages_none (env : Env) (chatId : String)
    (h0 : gatherPdfs env.bucket chatId ≠ []) (hd : env.dashKey = true)
    (hu : (uploadLoop env (sortByUploaded (gatherPdfs env.bucket chatId)) 0 ⟨[], [], []⟩).2
        = none) :
    runStages env chatId =
      summarizeAndFinish env (sortByUploaded (gatherPdfs env.bucket chatId))
        (uploadLoop env (sortByUploaded (gatherPdfs env.bucket chatId)) 0 ⟨[], [], []⟩).1 := by
  simp [runStages, hd, List.length_eq_zero, h0, hu]

/-- Summarization rejected: failure reply after the llm call. -/
lemma saf_llmFail (env : Env) (pdfs : List StoredObj) (acc : UploadAcc)
    (hok : env.llmResp.ok = false) :
    summarizeAndFinish env pdfs acc =
      ⟨[processingMsg, failMsg (llmFailText env.llmResp.errText)],
       acc.uploadCalls, [acc.fileIds], [], [], []⟩ := by
  simp [summarizeAndFinish, hok, Trace.empty]

/-- Document creation rejected: failure reply after the creation call. -/
lemma saf_docFail (env : Env) (pdfs : List StoredObj) (acc : UploadAcc)
    (hok : env.llmResp.ok = true) (hcode : env.docCreateResp.code ≠ 0) :
    summarizeAndFinish env pdfs acc =
      ⟨[processingMsg, failMsg (docCreateFailText env.docCreateResp.raw)],
       acc.uploadCalls, [acc.fileIds], [mkTitle acc.fileNames], [], []⟩ := by
  simp [summarizeAndFinish, hok, hcode, Trace.empty]

/-- Creation response without a document id: failure reply. -/
lemma saf_noId (env : Env) (pdfs : List StoredObj) (acc : UploadAcc)
    (hok : env.llmResp.ok = true) (hcode : env.docCreateResp.code = 0)
    (hid : jsTruthyStr env.docCreateResp.documentId = none) :
    summarizeAndFinish env pdfs acc =
      ⟨[processingMsg, failMsg noDocIdMsg],
       acc.uploadCalls, [acc.fileIds], [mkTitle acc.fileNames], [], []⟩ := by
  simp [summarizeAndFinish, hok, hcode, hid, Trace.empty]

/-- Full success path: write, cleanup and success reply. -/
lemma saf_success (env : Env) (pdfs : List StoredObj) (acc : UploadAcc) (d : String)
    (hok : env.llmResp.ok = true) (hcode : env.docCreateResp.code = 0)
    (hid : jsTruthyStr env.docCreateResp.documentId = some d) :
    summarizeAndFinish env pdfs acc =
      ⟨[processingMsg,
        successMsg acc.fileNames.length (("https://feishu.cn/docx/") ++ d)],
       acc.uploadCalls, [acc.fileIds], [mkTitle acc.fileNames],
       [(d, (jsTruthyStr env.llmResp.content).getD noSummaryMsg)],
       pdfs.map (fun o => o.key)⟩ := by
  simp [summarizeAndFinish, hok, hcode, hid, Trace.empty]

/-- The summarization request is issued with the collected file ids,
whatever the later stages do. -/
lemma saf_llmCalls (env : Env) (pdfs : List StoredObj) (acc : UploadAcc) :
    (summarizeAndFinish env pdfs acc).llmCalls = [acc.fileIds] := by
  cases hok : env.llmResp.ok with
  | false => rw [saf_llmFail env pdfs acc hok]
  | true =>
    by_cases hcode : env.docCreateResp.code = 0
    · cases hid : jsTruthyStr env.docCreateResp.documentId with
      | none => rw [saf_noId env pdfs acc hok hcode hid]
      | some d => rw [saf_success env pdfs acc d hok hcode hid]
    · rw [saf_docFail env pdfs acc hok hcode]

/-- With the summarization accepted, document creation is attempted with the
title built from the collected file names, whatever the document service does. -/
lemma saf_docCreateCalls (env : Env) (pdfs : List StoredObj) (acc : UploadAcc)
    (hok : env.llmResp.ok = true) :
    (summarizeAndFinish env pdfs acc).docCreateCalls = [mkTitle acc.fileNames] := by
  by_cases hcode : env.docCreateResp.code = 0
  · cases hid : jsTruthyStr env.docCreateResp.documentId with
    | none => rw [saf_noId env pdfs acc hok hcode hid]
    | some d => rw [saf_success env pdfs acc d hok hcode hid]
  · rw [saf_docFail env pdfs acc hok hcode]

/-- Characterization of a finished upload loop: it processed exactly the
present files, in order; names and upload calls are their extracted names,
and the ids are the successive responses' ids. -/
lemma uploadLoop_none (env : Env) :
    ∀ (l : List StoredObj) (k : Nat) (acc : UploadAcc),
      (uploadLoop env l k acc).2 = none →
      (uploadLoop env l k acc).1.fileNames
          = acc.fileNames ++ (presentFiles env l).map (fun o => extractFileName o.key) ∧
      (uploadLoop env l k acc).1.uploadCalls
          = acc.uploadCalls ++ (presentFiles env l).map (fun o => extractFileName o.key) ∧
      (uploadLoop env l k acc).1.fileIds
          = acc.fileIds ++ expectedIds env k (presentFiles env l).length := by
  intro l
  induction l with
  | nil => intro k acc _; simp [uploadLoop, presentFiles, expectedIds]
  | cons pdf rest ih =>
    intro k acc h
    by_cases hp : env.objPresent pdf.key
    · cases hok : (env.uploadResp k).ok
      · exfalso
        simp [uploadLoop, hp, hok] at h
      · cases hid : jsTruthyStr (env.uploadResp k).id with
        | none =>
          exfalso
          simp [uploadLoop, hp, hok, hid] at h
        | some i =>
          have h' : (uploadLoop env rest (k + 1)
              ⟨acc.fileIds ++ [i],
               acc.fileNames ++ [extractFileName pdf.key],
               acc.uploadCalls ++ [extractFileName pdf.key]⟩).2 = none := by
            simpa [uploadLoop, hp, hok, hid] using h
          have hrec := ih (k + 1)
            ⟨acc.fileIds ++ [i],
             acc.fileNames ++ [extractFileName pdf.key],
             acc.uploadCalls ++ [extractFileName pdf.key]⟩ h'
          have hgoal : uploadLoop env (pdf :: rest) k acc
              = uploadLoop env rest (k + 1)
                ⟨acc.fileIds ++ [i],
                 acc.fileNames ++ [extractFileName pdf.key],
                 acc.uploadCalls ++ [extractFileName pdf.key]⟩ := by
            simp [uploadLoop, hp, hok, hid]
          rw [hgoal]
          have hpres : presentFiles env (pdf :: rest) = pdf :: presentFiles env rest := by
            simp [presentFiles, List.filter_cons, hp]
          have hi : i = respId env k := by simp [respId, hid]
          rw [hpres]
          refine ⟨?_, ?_, ?_⟩
          · rw [hrec.1]; simp
          · rw [hrec.2.1]; simp
          · rw [hrec.2.2]
            simp only [List.length_cons, expectedIds, ← hi]
            simp
    · have hgoal : uploadLoop env (pdf :: rest) k acc = uploadLoop env rest k acc := by
        simp [uploadLoop, hp]
      have h' : (uploadLoop env rest k acc).2 = none := by rw [← hgoal]; exact h
      have hrec := ih k acc h'
      have hpres : presentFiles env (pdf :: rest) = presentFiles env rest := by
        simp [presentFiles, List.filter_cons, hp]
      rw [hgoal, hpres]
      exact hrec

/-- Characterization of an aborted upload loop: the error text is the thrown
message naming a present file of the list. -/
lemma uploadLoop_some (env : Env) :
    ∀ (l : List StoredObj) (k : Nat) (acc : UploadAcc) (e : String),
      (uploadLoop env l k acc).2 = some e →
      ∃ o, o ∈ l ∧ env.objPresent o.key = true ∧
        ((∃ t, e = uploadFailText (extractFileName o.key) t) ∨
         e = noIdText (extractFileName o.key)) := by
  intro l
  induction l with
  | nil => intro k acc e h; simp [uploadLoop] at h
  | cons pdf rest ih =>
    intro k acc e h
    by_cases hp : env.objPresent pdf.key
    · cases hok : (env.uploadResp k).ok
      · have he : e = uploadFailText (extractFileName pdf.key) (env.uploadResp k).errText := by
          simp [uploadLoop, hp, hok] at h
          first
          | exact h
          | exact h.symm
        exact ⟨pdf, List.mem_cons_self _ _, hp, Or.inl ⟨(env.uploadResp k).errText, he⟩⟩
      · cases hid : jsTruthyStr (env.uploadResp k).id with
        | none =>
          have he : e = noIdText (extractFileName pdf.key) := by
            simp [uploadLoop, hp, hok, hid] at h
            first
            | exact h
            | exact h.symm
          exact ⟨pdf, List.mem_cons_self _ _, hp, Or.inr he⟩
        | some i =>
          have h' : (uploadLoop env rest (k + 1)
              ⟨acc.fileIds ++ [i],
               acc.fileNames ++ [extractFileName pdf.key],
               acc.uploadCalls ++ [extractFileName pdf.key]⟩).2 = some e := by
            simpa [uploadLoop, hp, hok, hid] using h
          obtain ⟨o, ho, hpo, he⟩ := ih (k + 1) _ e h'
          exact ⟨o, List.mem_cons_of_mem _ ho, hpo, he⟩
    · have h' : (uploadLoop env rest k acc).2 = some e := by
        simpa [uploadLoop, hp] using h
      obtain ⟨o, ho, hpo, he⟩ := ih k acc e h'
      exact ⟨o, List.mem_cons_of_mem _ ho, hpo, he⟩

/-- `expectedIds` has the announced length. -/
lemma expectedIds_length (env : Env) : ∀ (n k : Nat), (expectedIds env k n).length = n := by
  intro n
  induction n with
  | zero => intro k; rfl
  | succ m ih => intro k; simp [expectedIds, ih]

/-- The i-th collected id is the id of the (k+i)-th upload response. -/
lemma expectedIds_get (env : Env) :
    ∀ (n k i : Nat) (h : i < (expectedIds env k n).length),
      (expectedIds env k n).get ⟨i, h⟩ = respId env (k + i) := by
  intro n
  induction n with
  | zero => intro k i h; simp [expectedIds] at h
  | succ m ih =>
    intro k i h
    cases i with
    | zero => simp [expectedIds]
    | succ j =>
      have hh : j < (expectedIds env (k + 1) m).length := by
        simpa [expectedIds] using Nat.lt_of_succ_lt_succ (by simpa [expectedIds] using h)
      have := ih (k + 1) j hh
      simp only [expectedIds, List.get_cons_succ]
      rw [this]
      congr 1
      omega

/-! ### String lemmas -/

/-- `splitChar` never returns the empty list of parts. -/
lemma splitChar_ne_nil (c : Char) (l : List Char) : splitChar c l ≠ [] := by
  cases l with
  | nil => simp [splitChar]
  | cons x xs =>
    simp only [splitChar]
    by_cases hx : x = c
    · simp [hx]
    · simp only [if_neg hx]
      cases splitChar c xs <;> simp

/-- Joining the parts of a split restores the original list. -/
lemma joinChar_splitChar (c : Char) : ∀ l : List Char, joinChar c (splitChar c l) = l := by
  intro l
  induction l with
  | nil => rfl
  | cons x xs ih =>
    by_cases hx : x = c
    · subst hx
      simp only [splitChar, if_pos rfl]
      cases hs : splitChar x xs with
      | nil => exact absurd hs (splitChar_ne_nil x xs)
      | cons h t =>
        rw [hs] at ih
        simp [joinChar, ih]
    · simp only [splitChar, if_neg hx]
      cases hs : splitChar c xs with
      | nil => exact absurd hs (splitChar_ne_nil c xs)
      | cons h t =>
        rw [hs] at ih
        cases t with
        | nil =>
          simp only [joinChar] at ih ⊢
          rw [ih]
        | cons y t2 =>
          simp only [joinChar, List.cons_append] at ih ⊢
          rw [ih]

/-- Splitting at the first separator: the part before it is the head. -/
lemma splitChar_sep (c : Char) :
    ∀ (l₁ l₂ : List Char), c ∉ l₁ →
      splitChar c (l₁ ++ c :: l₂) = l₁ :: splitChar c l₂ := by
  intro l₁
  induction l₁ with
  | nil => intro l₂ _; simp [splitChar]
  | cons x xs ih =>
    intro l₂ hc
    have hx : ¬ x = c := fun he => hc (he ▸ List.mem_cons_self x xs)
    have hxs : c ∉ xs := fun hm => hc (List.mem_cons_of_mem _ hm)
    simp [List.cons_append, splitChar, if_neg hx, ih l₂ hxs]

/-- The literal key namespace decomposes at its underscore. -/
lemma chatData_data : ("chat_data/").data = ("chat").data ++ '_' :: ("data/").data := rfl

/-- What `extractFileName` returns on a key of the staged format: only the
leading `chat` segment is removed, not the timestamp. -/
lemma extractFileName_storageKey (chatId : String) (now : Nat) (nm : String) :
    extractFileName (storageKey chatId now nm)
      = ("data/") ++ chatId ++ ("/") ++ toString now ++ ("_") ++ nm := by
  have hk : (storageKey chatId now nm).data
      = ("chat").data
          ++ '_' :: (("data/") ++ chatId ++ ("/") ++ toString now ++ ("_") ++ nm).data := by
    simp only [storageKey, String.data_append, chatData_data, List.cons_append,
      List.append_assoc, List.nil_append]
  have hne : ((("data/") ++ chatId ++ ("/") ++ toString now ++ ("_") ++ nm).data).isEmpty
      = false := by
    have hd : ("data/").data ≠ [] := by decide
    simp [String.data_append, List.isEmpty_iff, hd]
  simp only [extractFileName]
  rw [hk, splitChar_sep '_' (("chat").data) _ (by decide)]
  simp only [List.drop_succ_cons, List.drop_zero, joinChar_splitChar, hne,
    Bool.false_eq_true, if_false]

/-- `takeWhile` up to the first separator returns the part before it. -/
lemma takeWhile_sep (r : List Char) :
    ∀ (l : List Char), (∀ x ∈ l, x ≠ '/') →
      (l ++ '/' :: r).takeWhile (fun ch => ch != '/') = l := by
  intro l
  induction l with
  | nil => simp [List.takeWhile]
  | cons x xs ih =>
    intro h
    have hx : x ≠ '/' := h x (List.mem_cons_self x xs)
    have hxs : ∀ y ∈ xs, y ≠ '/' := fun y hy => h y (List.mem_cons_of_mem _ hy)
    simp [List.takeWhile_cons, hx, ih hxs]

/-- A staged key is equivalently the conversation scope plus a local part. -/
lemma storageKey_eq (c : String) (ts : Nat) (nm : String) :
    storageKey c ts nm = chatScope c ++ toString ts ++ ("_") ++ nm := rfl

/-- A staged key always lies in its own conversation's scope. -/
lemma scope_self (c : String) (ts : Nat) (nm : String) :
    jsStartsWith (storageKey c ts nm) (chatScope c) = true := by
  simp only [jsStartsWith, List.isPrefixOf_iff_prefix]
  have hk : (storageKey c ts nm).data
      = (chatScope c).data ++ (toString ts ++ ("_") ++ nm).data := by
    rw [storageKey_eq]
    simp [String.data_append, List.append_assoc]
  rw [hk]
  exact List.prefix_append _ _

/-- A staged key of another (slash-free) conversation never lies in this
conversation's scope. -/
lemma scope_exact (c c' : String) (ts : Nat) (nm : String)
    (hne : c ≠ c') (hc : '/' ∉ c.data) (hc' : '/' ∉ c'.data) :
    jsStartsWith (storageKey c' ts nm) (chatScope c) = false := by
  cases hb : jsStartsWith (storageKey c' ts nm) (chatScope c) with
  | false => rfl
  | true =>
    exfalso
    rw [jsStartsWith, List.isPrefixOf_iff_prefix] at hb
    have hslash : ("/").data = ['/'] := rfl
    have hsc : (chatScope c).data = ("chat_data/").data ++ (c.data ++ ['/']) := by
      simp [chatScope, String.data_append, hslash]
    have hsk : (storageKey c' ts nm).data
        = ("chat_data/").data
            ++ (c'.data ++ '/' :: ((toString ts).data ++ ("_").data ++ nm.data)) := by
      simp [storageKey, String.data_append, hslash, List.append_assoc]
    rw [hsc, hsk, List.prefix_append_right_inj] at hb
    obtain ⟨t, ht⟩ := hb
    have ht' : c.data ++ '/' :: t
        = c'.data ++ '/' :: ((toString ts).data ++ ("_").data ++ nm.data) := by
      simpa [List.append_assoc] using ht
    have h1 := congrArg (List.takeWhile (fun ch => ch != '/')) ht'
    rw [takeWhile_sep _ _ (fun x hx he => hc (he ▸ hx)),
        takeWhile_sep _ _ (fun x hx he => hc' (he ▸ hx))] at h1
    exact hne (String.ext h1)

/-- A contiguous-occurrence test succeeds on every true infix. -/
lemma jsIncludesL_of_infix {sub : List Char} :
    ∀ {l : List Char}, sub <:+: l → jsIncludesL sub l = true := by
  intro l
  induction l with
  | nil =>
    intro h
    rw [List.infix_nil] at h
    subst h
    rfl
  | cons x xs ih =>
    intro h
    rw [List.infix_cons_iff] at h
    cases h with
    | inl hp => simp [jsIncludesL, List.isPrefixOf_iff_prefix, hp]
    | inr hi => simp [jsIncludesL, ih hi]

/-- A string contains any part it is concatenated around. -/
lemma jsIncludes_parts (s n : String) (l r : List Char)
    (hs : s.data = l ++ n.data ++ r) : jsIncludes s n = true := by
  unfold jsIncludes
  apply jsIncludesL_of_infix
  rw [hs]
  exact List.infix_append _ _ _

/-- The upload-failure reply embeds the file name it was thrown with. -/
lemma includes_uploadFail0 (nm t : String) :
    jsIncludes (failMsg (uploadFailText nm t)) nm = true := by
  apply jsIncludes_parts _ _
    ((("❌ 处理失败：").data) ++ (("DashScope upload failed for ").data))
    (((": ").data) ++ t.data)
  simp [failMsg, uploadFailText, String.data_append, List.append_assoc]

/-- The missing-id reply embeds the file name it was thrown with. -/
lemma includes_noId0 (nm : String) :
    jsIncludes (failMsg (noIdText nm)) nm = true := by
  apply jsIncludes_parts _ _
    ((("❌ 处理失败：").data) ++ (("DashScope upload failed, no file ID returned for ").data))
    ([])
  simp [failMsg, noIdText, String.data_append, List.append_assoc]

/-- The upload-failure reply embeds every suffix piece of its file name. -/
lemma includes_uploadFail (p nm t : String) :
    jsIncludes (failMsg (uploadFailText (p ++ nm) t)) nm = true := by
  apply jsIncludes_parts _ _
    ((("❌ 处理失败：").data) ++ (("DashScope upload failed for ").data) ++ p.data)
    (((": ").data) ++ t.data)
  simp [failMsg, uploadFailText, String.data_append, List.append_assoc]

/-- The missing-id reply embeds every suffix piece of its file name. -/
lemma includes_noId (p nm : String) :
    jsIncludes (failMsg (noIdText (p ++ nm))) nm = true := by
  apply jsIncludes_parts _ _
    ((("❌ 处理失败：").data) ++ (("DashScope upload failed, no file ID returned for ").data)
      ++ p.data)
    ([])
  simp [failMsg, noIdText, String.data_append, List.append_assoc]

/-- The success reply embeds the document link. -/
lemma includes_success (n : Nat) (url : String) :
    jsIncludes (successMsg n url) url = true := by
  apply jsIncludes_parts _ _
    ((("✅ 处理成功！\n\n📁 已处理文件：").data) ++ ((toString n).data)
      ++ ((" 份\n📄 分析报告：").data))
    ([])
  simp [successMsg, String.data_append, List.append_assoc]

/-- Membership is unchanged by the upload-time sort. -/
lemma mem_sortByUploaded {o : StoredObj} {l : List StoredObj} :
    o ∈ sortByUploaded l ↔ o ∈ l :=
  (List.perm_insertionSort uploadedLe l).mem_iff

/-- The files the loop processes are sorted ascending by upload time. -/
lemma sorted_presentFiles (env : Env) (l : List StoredObj) :
    List.Sorted uploadedLe (presentFiles env (sortByUploaded l)) :=
  (List.sorted_insertionSort uploadedLe l).filter _

/-- `uploadLoop_none` specialized to the empty starting accumulator. -/
lemma uploadLoop_none0 (env : Env) (l : List StoredObj)
    (hu : (uploadLoop env l 0 ⟨[], [], []⟩).2 = none) :
    (uploadLoop env l 0 ⟨[], [], []⟩).1.fileNames
        = (presentFiles env l).map (fun o => extractFileName o.key) ∧
    (uploadLoop env l 0 ⟨[], [], []⟩).1.uploadCalls
        = (presentFiles env l).map (fun o => extractFileName o.key) ∧
    (uploadLoop env l 0 ⟨[], [], []⟩).1.fileIds
        = expectedIds env 0 (presentFiles env l).length := by
  obtain ⟨a, b, c⟩ := uploadLoop_none env l 0 ⟨[], [], []⟩ hu
  refine ⟨?_, ?_, ?_⟩
  · rw [a]; exact List.nil_append _
  · rw [b]; exact List.nil_append _
  · rw [c]; exact List.nil_append _

/-! ### Concrete example environments -/

/-- Two staged files, listed youngest-first, all services healthy. -/
def envBase : Env where
  appConfigured := true
  tokenOk := true
  dashKey := true
  bucket := [⟨("chat_data/c1/200_b.pdf"), 200⟩, ⟨("chat_data/c1/100_a.pdf"), 100⟩]
  objPresent := fun _ => true
  uploadResp := fun k => if k = 0 then ⟨true, some ("id-a"), ("")⟩ else ⟨true, some ("id-b"), ("")⟩
  llmResp := ⟨true, some ("SUMMARY"), ("")⟩
  docCreateResp := ⟨0, some ("doc-1"), ("")⟩
  docWriteResp := ⟨0⟩

/-- As `envBase` but the summarization call is rejected. -/
def envC1w : Env := { envBase with llmResp := ⟨false, none, ("llm down")⟩ }

/-- As `envBase` but the second upload call is rejected. -/
def envC2w : Env :=
  { envBase with
      uploadResp := fun k =>
        if k = 0 then ⟨true, some ("id-a"), ("")⟩ else ⟨false, none, ("boom")⟩ }

/-- A bucket whose only object under the scope is not a PDF. -/
def envC3w : Env := { envBase with bucket := [⟨("chat_data/c1/50_note.txt"), 50⟩] }

/-- As `envBase` but the append-content write is rejected. -/
def envC5w : Env := { envBase with docWriteResp := ⟨1⟩ }

/-- One staged file, all services healthy. -/
def envC7 : Env := { envBase with bucket := [⟨("chat_data/c1/100_a.pdf"), 100⟩] }

/-- As `envBase` but the summarization response carries no content. -/
def envC9w : Env := { envBase with llmResp := ⟨true, none, ("")⟩ }

/-- As `envBase` but fetching the older key returns no object. -/
def envC10w : Env :=
  { envBase with objPresent := fun k => ! (k == ("chat_data/c1/100_a.pdf")) }

/-! ### The claims -/

/-- C1: the cleanup stage deletes from storage exactly the staged PDF keys
gathered in the gather stage (listed under the conversation scope, filtered
to the `.pdf` extension), and deletion happens only in a run whose document
creation succeeded; a run failing in the gather, upload, summarize or
document-creation stage deletes nothing. -/
theorem claim_C1 (env : Env) (chatId : String) :
    ((processPdfAndReply env chatId).deletedKeys = [] ∨
      ((processPdfAndReply env chatId).deletedKeys
          = (sortByUploaded (gatherPdfs env.bucket chatId)).map (fun o => o.key) ∧
       ((processPdfAndReply env chatId).deletedKeys).Perm
          ((gatherPdfs env.bucket chatId).map (fun o => o.key)) ∧
       env.docCreateResp.code = 0 ∧
       jsTruthyStr env.docCreateResp.documentId ≠ none ∧
       (processPdfAndReply env chatId).docCreateCalls ≠ [])) ∧
    ((gatherPdfs env.bucket chatId = [] ∨
      (uploadLoop env (sortByUploaded (gatherPdfs env.bucket chatId)) 0 ⟨[], [], []⟩).2 ≠ none ∨
      env.llmResp.ok = false ∨
      env.docCreateResp.code ≠ 0 ∨
      jsTruthyStr env.docCreateResp.documentId = none) →
      (processPdfAndReply env chatId).deletedKeys = []) := by
  cases h1 : env.appConfigured with
  | false =>
    have he : processPdfAndReply env chatId = Trace.empty := by
      simp [processPdfAndReply, h1]
    rw [he]
    exact ⟨Or.inl rfl, fun _ => rfl⟩
  | true =>
    cases h2 : env.tokenOk with
    | false =>
      have he : processPdfAndReply env chatId = Trace.empty := by
        simp [processPdfAndReply, h1, h2]
      rw [he]
      exact ⟨Or.inl rfl, fun _ => rfl⟩
    | true =>
      rw [run_eq_stages env chatId h1 h2]
      by_cases h0 : gatherPdfs env.bucket chatId = []
      · rw [runStages_empty env chatId h0]
        exact ⟨Or.inl rfl, fun _ => rfl⟩
      · cases hd : env.dashKey with
        | false =>
          rw [runStages_noKey env chatId h0 hd]
          exact ⟨Or.inl rfl, fun _ => rfl⟩
        | true =>
          cases hu : (uploadLoop env (sortByUploaded (gatherPdfs env.bucket chatId)) 0
              ⟨[], [], []⟩).2 with
          | some e =>
            rw [runStages_some env chatId e h0 hd hu]
            exact ⟨Or.inl rfl, fun _ => rfl⟩
          | none =>
            rw [runStages_none env chatId h0 hd hu]
            cases hok : env.llmResp.ok with
            | false =>
              rw [saf_llmFail env _ _ hok]
              exact ⟨Or.inl rfl, fun _ => rfl⟩
            | true =>
              by_cases hcode : env.docCreateResp.code = 0
              · cases hid : jsTruthyStr env.docCreateResp.documentId with
                | none =>
                  rw [saf_noId env _ _ hok hcode hid]
                  exact ⟨Or.inl rfl, fun _ => rfl⟩
                | some d =>
                  rw [saf_success env _ _ d hok hcode hid]
                  constructor
                  · refine Or.inr ⟨rfl, ?_, hcode, ?_, ?_⟩
                    · exact (List.perm_insertionSort uploadedLe _).map _
                    · exact fun hx => Option.noConfusion hx
                    · exact fun hx => List.noConfusion hx
                  · intro hfail
                    rcases hfail with h | h | h | h | h
                    · exact absurd h h0
                    · exact absurd rfl h
                    · exact Bool.noConfusion h
                    · exact absurd hcode h
                    · exact Option.noConfusion h
              · rw [saf_docFail env _ _ hok hcode]
                exact ⟨Or.inl rfl, fun _ => rfl⟩

/-- C1 witness: with the summarization call rejected, nothing is deleted. -/
theorem claim_C1_witness : (processPdfAndReply envC1w ("c1")).deletedKeys = [] :=
  (claim_C1 envC1w ("c1")).2 (Or.inr (Or.inr (Or.inl rfl)))

/-- C2: a run whose upload loop aborts makes no summarization call, no
document call, deletes nothing, and replies with a failure message that
embeds the implicated file's name — both the name the run computed for it
and, for a key of the staged format, the originally uploaded name. -/
theorem claim_C2 (env : Env) (chatId : String) (e : String)
    (h1 : env.appConfigured = true) (h2 : env.tokenOk = true)
    (hd : env.dashKey = true) (h0 : gatherPdfs env.bucket chatId ≠ [])
    (hu : (uploadLoop env (sortByUploaded (gatherPdfs env.bucket chatId)) 0 ⟨[], [], []⟩).2
        = some e) :
    (processPdfAndReply env chatId).llmCalls = [] ∧
    (processPdfAndReply env chatId).docCreateCalls = [] ∧
    (processPdfAndReply env chatId).docWriteCalls = [] ∧
    (processPdfAndReply env chatId).deletedKeys = [] ∧
    (processPdfAndReply env chatId).replies = [processingMsg, failMsg e] ∧
    ∃ o, o ∈ gatherPdfs env.bucket chatId ∧
      jsIncludes (failMsg e) (extractFileName o.key) = true ∧
      ∀ (c : String) (ts : Nat) (nm : String), o.key = storageKey c ts nm →
        jsIncludes (failMsg e) nm = true := by
  rw [run_eq_stages env chatId h1 h2, runStages_some env chatId e h0 hd hu]
  refine ⟨rfl, rfl, rfl, rfl, rfl, ?_⟩
  obtain ⟨o, ho, hpo, he⟩ := uploadLoop_some env _ 0 ⟨[], [], []⟩ e hu
  refine ⟨o, mem_sortByUploaded.mp ho, ?_, ?_⟩
  · rcases he with ⟨t, rfl⟩ | rfl
    · exact includes_uploadFail0 _ t
    · exact includes_noId0 _
  · intro c ts nm hkey
    rcases he with ⟨t, rfl⟩ | rfl
    · rw [hkey, extractFileName_storageKey]
      exact includes_uploadFail _ nm t
    · rw [hkey, extractFileName_storageKey]
      exact includes_noId _ nm

/-- C2 witness: a rejected second upload aborts before summarization and
document creation, leaves storage untouched, and names the file. -/
theorem claim_C2_witness :
    (processPdfAndReply envC2w ("c1")).llmCalls = [] ∧
    (processPdfAndReply envC2w ("c1")).docCreateCalls = [] ∧
    (processPdfAndReply envC2w ("c1")).docWriteCalls = [] ∧
    (processPdfAndReply envC2w ("c1")).deletedKeys = [] ∧
    (processPdfAndReply envC2w ("c1")).replies
      = [processingMsg, failMsg (uploadFailText ("data/c1/200_b.pdf") ("boom"))] ∧
    ∃ o, o ∈ gatherPdfs envC2w.bucket ("c1") ∧
      jsIncludes (failMsg (uploadFailText ("data/c1/200_b.pdf") ("boom")))
        (extractFileName o.key) = true ∧
      ∀ (c : String) (ts : Nat) (nm : String), o.key = storageKey c ts nm →
        jsIncludes (failMsg (uploadFailText ("data/c1/200_b.pdf") ("boom"))) nm = true :=
  claim_C2 envC2w ("c1") (uploadFailText ("data/c1/200_b.pdf") ("boom"))
    rfl rfl rfl (by decide) rfl

/-- C3: with zero staged PDFs under the conversation scope, the run makes no
understanding-service call, no document call and no deletion, and sends
exactly one empty-input failure reply. -/
theorem claim_C3 (env : Env) (chatId : String)
    (h1 : env.appConfigured = true) (h2 : env.tokenOk = true)
    (h0 : gatherPdfs env.bucket chatId = []) :
    processPdfAndReply env chatId = ⟨[processingMsg, noPdfMsg], [], [], [], [], []⟩ ∧
    (processPdfAndReply env chatId).replies.count noPdfMsg = 1 := by
  rw [run_eq_stages env chatId h1 h2, runStages_empty env chatId h0]
  exact ⟨rfl, by decide⟩

/-- C3 witness: a bucket whose only object under the scope is not a PDF. -/
theorem claim_C3_witness :
    processPdfAndReply envC3w ("c1") = ⟨[processingMsg, noPdfMsg], [], [], [], [], []⟩ ∧
    (processPdfAndReply envC3w ("c1")).replies.count noPdfMsg = 1 :=
  claim_C3 envC3w ("c1") rfl rfl (by decide)

/-- C4: the batched summarization request references the remote file ids in
ascending order of the files' upload times: the processed files are sorted
ascending and the i-th referenced id is the one returned for the i-th of
them; in particular with a.pdf at t=100 and b.pdf at t=200 the request
lists a.pdf's id before b.pdf's. -/
theorem claim_C4 (env : Env) (chatId : String) (ids : List String)
    (h1 : env.appConfigured = true) (h2 : env.tokenOk = true)
    (hd : env.dashKey = true) (h0 : gatherPdfs env.bucket chatId ≠ [])
    (hl : (processPdfAndReply env chatId).llmCalls = [ids]) :
    (List.Sorted uploadedLe (presentFiles env (sortByUploaded (gatherPdfs env.bucket chatId))) ∧
     ids.length = (presentFiles env (sortByUploaded (gatherPdfs env.bucket chatId))).length ∧
     ∀ (i : Nat) (h : i < (expectedIds env 0
         (presentFiles env (sortByUploaded (gatherPdfs env.bucket chatId))).length).length),
       (expectedIds env 0
         (presentFiles env (sortByUploaded (gatherPdfs env.bucket chatId))).length).get ⟨i, h⟩
         = respId env i ∧
       ids = expectedIds env 0
         (presentFiles env (sortByUploaded (gatherPdfs env.bucket chatId))).length) ∧
    (processPdfAndReply envBase ("c1")).llmCalls = [[("id-a"), ("id-b")]] := by
  constructor
  · cases hu : (uploadLoop env (sortByUploaded (gatherPdfs env.bucket chatId)) 0
        ⟨[], [], []⟩).2 with
    | some e =>
      rw [run_eq_stages env chatId h1 h2, runStages_some env chatId e h0 hd hu] at hl
      exact absurd hl.symm (List.cons_ne_nil _ _)
    | none =>
      rw [run_eq_stages env chatId h1 h2, runStages_none env chatId h0 hd hu,
        saf_llmCalls] at hl
      injection hl with hh _
      obtain ⟨-, -, hfid⟩ := uploadLoop_none0 env _ hu
      have hids : ids = expectedIds env 0
          (presentFiles env (sortByUploaded (gatherPdfs env.bucket chatId))).length := by
        rw [← hh, hfid]
      refine ⟨sorted_presentFiles env _, ?_, ?_⟩
      · rw [hids, expectedIds_length]
      · intro i hlt
        refine ⟨?_, hids⟩
        have hg := expectedIds_get env _ 0 i hlt
        rw [Nat.zero_add] at hg
        exact hg
  · rfl

/-- C4 witness: in the healthy two-file environment the one summarization
call lists the older file's id first. -/
theorem claim_C4_witness :
    (List.Sorted uploadedLe
        (presentFiles envBase (sortByUploaded (gatherPdfs envBase.bucket ("c1")))) ∧
     ([("id-a"), ("id-b")] : List String).length
        = (presentFiles envBase (sortByUploaded (gatherPdfs envBase.bucket ("c1")))).length ∧
     ∀ (i : Nat) (h : i < (expectedIds envBase 0
         (presentFiles envBase (sortByUploaded (gatherPdfs envBase.bucket ("c1")))).length).length),
       (expectedIds envBase 0
         (presentFiles envBase (sortByUploaded (gatherPdfs envBase.bucket ("c1")))).length).get
           ⟨i, h⟩ = respId envBase i ∧
       [("id-a"), ("id-b")] = expectedIds envBase 0
         (presentFiles envBase (sortByUploaded (gatherPdfs envBase.bucket ("c1")))).length) ∧
    (processPdfAndReply envBase ("c1")).llmCalls = [[("id-a"), ("id-b")]] :=
  claim_C4 envBase ("c1") [("id-a"), ("id-b")] rfl rfl rfl (by decide) rfl

/-- C5: when the append-content write fails after document creation, the run
still deletes the staged files and still sends a success reply embedding
the document link. -/
theorem claim_C5 (env : Env) (chatId : String) (d : String)
    (h1 : env.appConfigured = true) (h2 : env.tokenOk = true)
    (hd : env.dashKey = true) (h0 : gatherPdfs env.bucket chatId ≠ [])
    (hu : (uploadLoop env (sortByUploaded (gatherPdfs env.bucket chatId)) 0 ⟨[], [], []⟩).2
        = none)
    (hok : env.llmResp.ok = true) (hcode : env.docCreateResp.code = 0)
    (hid : jsTruthyStr env.docCreateResp.documentId = some d)
    (hw : env.docWriteResp.code ≠ 0) :
    (processPdfAndReply env chatId).deletedKeys
        = (sortByUploaded (gatherPdfs env.bucket chatId)).map (fun o => o.key) ∧
    ((processPdfAndReply env chatId).deletedKeys).Perm
        ((gatherPdfs env.bucket chatId).map (fun o => o.key)) ∧
    ∃ n, (processPdfAndReply env chatId).replies
        = [processingMsg, successMsg n (("https://feishu.cn/docx/") ++ d)] ∧
      jsIncludes (successMsg n (("https://feishu.cn/docx/") ++ d))
        (("https://feishu.cn/docx/") ++ d) = true := by
  rw [run_eq_stages env chatId h1 h2, runStages_none env chatId h0 hd hu,
    saf_success env _ _ d hok hcode hid]
  exact ⟨rfl, (List.perm_insertionSort uploadedLe _).map _, _, rfl, includes_success _ _⟩

/-- C5 witness: a rejected write still yields cleanup and a success reply. -/
theorem claim_C5_witness :
    (processPdfAndReply envC5w ("c1")).deletedKeys
        = (sortByUploaded (gatherPdfs envC5w.bucket ("c1"))).map (fun o => o.key) ∧
    ((processPdfAndReply envC5w ("c1")).deletedKeys).Perm
        ((gatherPdfs envC5w.bucket ("c1")).map (fun o => o.key)) ∧
    ∃ n, (processPdfAndReply envC5w ("c1")).replies
        = [processingMsg, successMsg n (("https://feishu.cn/docx/") ++ ("doc-1"))] ∧
      jsIncludes (successMsg n (("https://feishu.cn/docx/") ++ ("doc-1")))
        (("https://feishu.cn/docx/") ++ ("doc-1")) = true :=
  claim_C5 envC5w ("c1") ("doc-1") rfl rfl rfl (by decide) rfl rfl rfl rfl (by decide)

/-- C6: url_verification is rejected when a verification token is configured
and the payload token mismatches; otherwise the payload's challenge is
echoed, e.g. challenge abc123 yields exactly the echo of abc123. -/
theorem claim_C6 (cfg tok chal : Option String) :
    ((∃ t, jsTruthyStr cfg = some t ∧ tok ≠ some t) →
        handleUrlVerification cfg tok chal = WebhookReply.invalidToken) ∧
    ((∀ t, jsTruthyStr cfg = some t → tok = some t) →
        handleUrlVerification cfg tok chal = WebhookReply.challengeEcho chal) ∧
    handleUrlVerification (some ("tok")) (some ("tok")) (some ("abc123"))
      = WebhookReply.challengeEcho (some ("abc123")) ∧
    handleUrlVerification (some ("tok")) (some ("bad")) (some ("abc123"))
      = WebhookReply.invalidToken := by
  refine ⟨?_, ?_, by decide, by decide⟩
  · rintro ⟨t, ht, hne⟩
    simp [handleUrlVerification, ht, hne]
  · intro hall
    cases hc : jsTruthyStr cfg with
    | none => simp [handleUrlVerification, hc]
    | some t =>
      have := hall t hc
      simp [handleUrlVerification, hc, this]

/-- C6 witness: correct token echoes the challenge; wrong token rejects. -/
theorem claim_C6_witness :
    handleUrlVerification (some ("tok")) (some ("tok")) (some ("abc123"))
      = WebhookReply.challengeEcho (some ("abc123")) ∧
    handleUrlVerification (some ("tok")) (some ("bad")) (some ("abc123"))
      = WebhookReply.invalidToken :=
  ⟨(claim_C6 (some ("tok")) (some ("tok")) (some ("abc123"))).2.1
      (by intro t ht; simp [jsTruthyStr] at ht; rw [← ht]),
   (claim_C6 (some ("tok")) (some ("bad")) (some ("abc123"))).1
      ⟨("tok"), by decide, by decide⟩⟩

/-- C7: evaluation at the failing input.  For the staged key
chat_data/c1/100_a.pdf (original name a.pdf uploaded at t=100) the document
title keeps the conversation id and the timestamp — the code removes only
the leading chat segment, not the timestamp as the spec (and the code's own
comment) intend. -/
theorem claim_C7_eval :
    (processPdfAndReply envC7 ("c1")).docCreateCalls
        = [("📄 分析报告: data/c1/100_a.pdf")] ∧
    extractFileName ("chat_data/c1/100_a.pdf") ≠ ("a.pdf") ∧
    (("📄 分析报告: data/c1/100_a.pdf") : String) ≠ ("📄 分析报告: a.pdf") := by
  exact ⟨rfl, by decide, by decide⟩

/-- C8: the file branch stages a keyed attachment exactly when its
(defaulted) name ends in .pdf case-insensitively, silently ignores the
rest, and writes under chat_data/conversation/timestamp_name, so keys lie
in their own conversation's scope and (for slash-free conversation ids) in
no other's. -/
theorem claim_C8 (file_name file_key : Option String) (c c' : String) (ts : Nat)
    (nm : String) :
    (jsTruthyStr file_key ≠ none →
      (fileBranchStages file_name file_key ≠ none ↔
        jsEndsWith (jsToLower ((jsTruthyStr file_name).getD ("unknown.pdf"))) (".pdf")
          = true)) ∧
    (jsTruthyStr file_key = none → fileBranchStages file_name file_key = none) ∧
    storageKey c ts nm = chatScope c ++ toString ts ++ ("_") ++ nm ∧
    jsStartsWith (storageKey c ts nm) (chatScope c) = true ∧
    (c ≠ c' → '/' ∉ c.data → '/' ∉ c'.data →
      jsStartsWith (storageKey c' ts nm) (chatScope c) = false) := by
  refine ⟨?_, ?_, storageKey_eq c ts nm, scope_self c ts nm, scope_exact c c' ts nm⟩
  · intro hk
    cases hkk : jsTruthyStr file_key with
    | none => exact absurd hkk hk
    | some k =>
      constructor
      · intro hst
        by_cases he : jsEndsWith (jsToLower ((jsTruthyStr file_name).getD ("unknown.pdf")))
            (".pdf") = true
        · exact he
        · exact absurd (by simp [fileBranchStages, hkk, he]) hst
      · intro he
        simp [fileBranchStages, hkk, he]
  · intro hk
    simp [fileBranchStages, hk]

/-- C8 witness: an uppercase-suffix attachment with a key is staged; keys of
one conversation lie in its scope and not in a different conversation's. -/
theorem claim_C8_witness :
    fileBranchStages (some ("Report.PDF")) (some ("k1")) ≠ none ∧
    jsStartsWith (storageKey ("c1") 123 ("a.pdf")) (chatScope ("c1")) = true ∧
    jsStartsWith (storageKey ("c2") 123 ("a.pdf")) (chatScope ("c1")) = false :=
  ⟨((claim_C8 (some ("Report.PDF")) (some ("k1")) ("c1") ("c2") 123 ("a.pdf")).1
      (by decide)).mpr (by decide),
   (claim_C8 (some ("Report.PDF")) (some ("k1")) ("c1") ("c2") 123 ("a.pdf")).2.2.2.1,
   (claim_C8 (some ("Report.PDF")) (some ("k1")) ("c1") ("c2") 123 ("a.pdf")).2.2.2.2
      (by decide) (by decide) (by decide)⟩

/-- C9: an accepted summarization response with no content does not fail the
run: a document is still created, and on a healthy document service the
placeholder text is written and a success reply with the link is sent. -/
theorem claim_C9 (env : Env) (chatId : String)
    (h1 : env.appConfigured = true) (h2 : env.tokenOk = true)
    (hd : env.dashKey = true) (h0 : gatherPdfs env.bucket chatId ≠ [])
    (hu : (uploadLoop env (sortByUploaded (gatherPdfs env.bucket chatId)) 0 ⟨[], [], []⟩).2
        = none)
    (hok : env.llmResp.ok = true) (hc : env.llmResp.content = none) :
    (processPdfAndReply env chatId).docCreateCalls ≠ [] ∧
    ∀ (d : String), env.docCreateResp.code = 0 →
      jsTruthyStr env.docCreateResp.documentId = some d →
      (processPdfAndReply env chatId).docWriteCalls = [(d, noSummaryMsg)] ∧
      (processPdfAndReply env chatId).replies
        = [processingMsg,
           successMsg
             (uploadLoop env (sortByUploaded (gatherPdfs env.bucket chatId)) 0
               ⟨[], [], []⟩).1.fileNames.length
             (("https://feishu.cn/docx/") ++ d)] := by
  rw [run_eq_stages env chatId h1 h2, runStages_none env chatId h0 hd hu]
  constructor
  · rw [saf_docCreateCalls env _ _ hok]
    exact List.cons_ne_nil _ _
  · intro d hcode hid
    rw [saf_success env _ _ d hok hcode hid]
    constructor
    · show [(d, (jsTruthyStr env.llmResp.content).getD noSummaryMsg)] = [(d, noSummaryMsg)]
      rw [hc]
      rfl
    · rfl

/-- C9 witness: no content in the summarization response still yields a
created document, the placeholder write and a success reply. -/
theorem claim_C9_witness :
    (processPdfAndReply envC9w ("c1")).docCreateCalls ≠ [] ∧
    ∀ (d : String), envC9w.docCreateResp.code = 0 →
      jsTruthyStr envC9w.docCreateResp.documentId = some d →
      (processPdfAndReply envC9w ("c1")).docWriteCalls = [(d, noSummaryMsg)] ∧
      (processPdfAndReply envC9w ("c1")).replies
        = [processingMsg,
           successMsg
             (uploadLoop envC9w (sortByUploaded (gatherPdfs envC9w.bucket ("c1"))) 0
               ⟨[], [], []⟩).1.fileNames.length
             (("https://feishu.cn/docx/") ++ d)] :=
  claim_C9 envC9w ("c1") rfl rfl rfl (by decide) rfl rfl rfl

/-- C10: a gathered key whose fetch returns no object is silently skipped —
absent from the upload calls, the referenced ids, the reported count and
the title, with no failure reply — yet on a successful run its key is still
deleted. -/
theorem claim_C10 (env : Env) (chatId : String) (pdf : StoredObj) (d : String)
    (h1 : env.appConfigured = true) (h2 : env.tokenOk = true)
    (hd : env.dashKey = true)
    (hmem : pdf ∈ gatherPdfs env.bucket chatId)
    (habs : env.objPresent pdf.key = false)
    (hu : (uploadLoop env (sortByUploaded (gatherPdfs env.bucket chatId)) 0 ⟨[], [], []⟩).2
        = none)
    (hok : env.llmResp.ok = true) (hcode : env.docCreateResp.code = 0)
    (hid : jsTruthyStr env.docCreateResp.documentId = some d) :
    pdf ∉ presentFiles env (sortByUploaded (gatherPdfs env.bucket chatId)) ∧
    (processPdfAndReply env chatId).uploadCalls
      = (presentFiles env (sortByUploaded (gatherPdfs env.bucket chatId))).map
          (fun o => extractFileName o.key) ∧
    (processPdfAndReply env chatId).llmCalls
      = [expectedIds env 0
          (presentFiles env (sortByUploaded (gatherPdfs env.bucket chatId))).length] ∧
    (processPdfAndReply env chatId).docCreateCalls
      = [mkTitle ((presentFiles env (sortByUploaded (gatherPdfs env.bucket chatId))).map
          (fun o => extractFileName o.key))] ∧
    (processPdfAndReply env chatId).replies
      = [processingMsg,
         successMsg (presentFiles env (sortByUploaded (gatherPdfs env.bucket chatId))).length
           (("https://feishu.cn/docx/") ++ d)] ∧
    pdf.key ∈ (processPdfAndReply env chatId).deletedKeys := by
  have h0 : gatherPdfs env.bucket chatId ≠ [] := List.ne_nil_of_mem hmem
  have hpne : pdf ∉ presentFiles env (sortByUploaded (gatherPdfs env.bucket chatId)) := by
    intro hin
    have hb := (List.mem_filter.mp hin).2
    rw [habs] at hb
    exact Bool.noConfusion hb
  rw [run_eq_stages env chatId h1 h2, runStages_none env chatId h0 hd hu,
    saf_success env _ _ d hok hcode hid]
  obtain ⟨hnames, hcalls, hfid⟩ := uploadLoop_none0 env _ hu
  refine ⟨hpne, hcalls, ?_, ?_, ?_, ?_⟩
  · exact congrArg (fun x => [x]) hfid
  · exact congrArg (fun x => [mkTitle x]) hnames
  · have hlen : (uploadLoop env (sortByUploaded (gatherPdfs env.bucket chatId)) 0
        ⟨[], [], []⟩).1.fileNames.length
        = (presentFiles env (sortByUploaded (gatherPdfs env.bucket chatId))).length := by
      rw [hnames, List.length_map]
    exact congrArg
      (fun n => [processingMsg, successMsg n (("https://feishu.cn/docx/") ++ d)]) hlen
  · exact List.mem_map_of_mem (fun o => o.key) (mem_sortByUploaded.mpr hmem)

/-- C10 witness: with the older key's fetch returning nothing, only the newer
file is uploaded and counted, no error is raised, and the stale key is
still deleted. -/
theorem claim_C10_witness :
    (⟨("chat_data/c1/100_a.pdf"), 100⟩ : StoredObj) ∉
        presentFiles envC10w (sortByUploaded (gatherPdfs envC10w.bucket ("c1"))) ∧
    (processPdfAndReply envC10w ("c1")).uploadCalls
      = (presentFiles envC10w (sortByUploaded (gatherPdfs envC10w.bucket ("c1")))).map
          (fun o => extractFileName o.key) ∧
    (processPdfAndReply envC10w ("c1")).llmCalls
      = [expectedIds envC10w 0
          (presentFiles envC10w (sortByUploaded (gatherPdfs envC10w.bucket ("c1")))).length] ∧
    (processPdfAndReply envC10w ("c1")).docCreateCalls
      = [mkTitle ((presentFiles envC10w (sortByUploaded (gatherPdfs envC10w.bucket ("c1")))).map
          (fun o => extractFileName o.key))] ∧
    (processPdfAndReply envC10w ("c1")).replies
      = [processingMsg,
         successMsg (presentFiles envC10w (sortByUploaded (gatherPdfs envC10w.bucket ("c1")))).length
           (("https://feishu.cn/docx/") ++ ("doc-1"))] ∧
    ("chat_data/c1/100_a.pdf" : String) ∈ (processPdfAndReply envC10w ("c1")).deletedKeys :=
  claim_C10 envC10w ("c1") ⟨("chat_data/c1/100_a.pdf"), 100⟩ ("doc-1")
    rfl rfl rfl (by decide) rfl rfl rfl rfl rfl

end Moltworker
